import Mathlib

/-!
Verification of the capability-to-entity synchronization fragment
(`src/hass_mqtt/binary_sensor.rs`) of govee2mqtt: a shallow embedding of
`BinarySensorConfig`, `AlarmEventSensor::new` and
`AlarmEventSensor::notify_state`, together with the state-store and
serialization interfaces they use, and theorems about the spec's claims.
-/

namespace Govee2Mqtt

/-- Shallow embedding of `serde_json::Value`: the untyped raw-state
attribute bag carried by a capability. Integer numbers are modelled with
`Int`; non-integer payload shapes relevant to the claims are covered by
the remaining constructors. -/
inductive Json where
  | null
  | bool (b : Bool)
  | int (n : Int)
  | str (s : String)
  | arr (elems : List Json)
  | obj (fields : List (String × Json))
deriving Repr, Inhabited

/-- `serde_json::Value::as_i64`: `some` exactly on integer numbers. -/
def Json.as_i64 : Json → Option Int
  | .int n => some n
  | _ => none

/-- `serde_json::Value::pointer("/value")` for the fixed path used by
`AlarmEventSensor::notify_state`: on an object, look up the field
`"value"`; the token `"value"` is not numeric, so arrays (and every other
shape) yield `none`. -/
def Json.pointer_value : Json → Option Json
  | .obj fields => fields.lookup "value"
  | _ => none

/-- Rust `str::ends_with`: the suffix test used by the classification
match guards. On UTF-8 strings the byte-suffix test agrees with the
character-list suffix test. -/
def str_ends_with (s suffix : String) : Bool :=
  suffix.data.isSuffixOf s.data

/-- Modelled from the spec: a Capability is an "(instance-name, raw-state)
pair scoped to a Device" (§3); `DeviceCapabilityState` is the state-store
view of one capability, as returned by
`get_state_capability_by_instance` (the defining code is outside the
fragment). -/
structure DeviceCapabilityState where
  «instance» : String
  state : Json
deriving Repr, Inhabited

/-- Modelled from the spec: the vendor-API capability descriptor passed to
`AlarmEventSensor::new` (`crate::platform_api::DeviceCapability` is
outside the fragment); the constructor only reads its `instance` name. -/
structure DeviceCapability where
  «instance» : String
  state : Json
deriving Repr, Inhabited

/-- Modelled from the spec: a Device has a stable id, display metadata and
its capabilities (§3); `crate::service::device::Device` is outside the
fragment. The invariant "at most one live Capability per (device,
instance-name)" makes first-match lookup the lookup. -/
structure ServiceDevice where
  id : String
  name : String
  state_capabilities : List DeviceCapabilityState
deriving Repr, Inhabited

/-- Modelled from the spec: capability lookup by instance name on the
state-store device view (the defining code is outside the fragment). -/
def ServiceDevice.get_state_capability_by_instance
    (d : ServiceDevice) (inst : String) : Option DeviceCapabilityState :=
  d.state_capabilities.find? (fun c => c.«instance» == inst)

/-- Modelled from the spec: the State Store registry of all known devices
with `get_device(id) -> Option<DeviceView>` (§4.3); the handle's contents
at a given moment are a list of devices. `crate::service::state` is
outside the fragment. -/
structure StateHandle where
  devices : List ServiceDevice
deriving Repr, Inhabited

/-- Modelled from the spec: `StateHandle::device_by_id`, the
`get_device(id) -> Option<DeviceView>` operation of §4.3. -/
def StateHandle.device_by_id (st : StateHandle) (id : String) : Option ServiceDevice :=
  st.devices.find? (fun d => d.id == id)

/-- Modelled from the spec: `topic_safe_id` (from `crate::service::hass`,
outside the fragment). §3 specifies only that the unique id is a pure
function of the device id; modelled as returning the id unchanged, which
is the most collision-free choice. -/
def topic_safe_id (d : ServiceDevice) : String := d.id

/-- Modelled from the spec: `topic_safe_string` (from
`crate::service::hass`, outside the fragment); as for `topic_safe_id`,
modelled as the identity on the instance name. -/
def topic_safe_string (s : String) : String := s

/-- Modelled from the spec: "a single process-wide topic string
representing bridge liveness" (§3); the defining code is outside the
fragment. -/
def availability_topic : String := "gv2mqtt/availability"

/-- Modelled from the spec: origin metadata attached to every descriptor
(§6); `crate::hass_mqtt::base::Origin` is outside the fragment. -/
structure Origin where
  sw : String := "govee2mqtt"
deriving Repr, Inhabited

/-- `Origin::default()`. -/
def Origin.default : Origin := {}

/-- Modelled from the spec: "device linkage (stable id + display info)"
(§6); `crate::hass_mqtt::base::Device` is outside the fragment. -/
structure HassDevice where
  identifiers : List String
  name : String
deriving Repr, Inhabited

/-- Modelled from the spec: `Device::for_device`, deriving the device
linkage from the service device. -/
def HassDevice.for_device (d : ServiceDevice) : HassDevice :=
  { identifiers := [d.id], name := d.name }

/-- Modelled from the spec: `crate::hass_mqtt::base::EntityConfig`
(outside the fragment); its fields are exactly those the fragment
populates at lines 69-78 of `binary_sensor.rs`. -/
structure EntityConfig where
  availability_topic : String
  name : Option String
  entity_category : Option String
  origin : Origin
  device : HassDevice
  unique_id : String
  device_class : Option String
  icon : Option String
deriving Repr, Inhabited

/-- `BinarySensorConfig` (lines 10-22): the flattened base plus the
binary-sensor specific fields. The Rust `Option<&'static str>`
device class is modelled as `Option String`. -/
structure BinarySensorConfig where
  base : EntityConfig
  state_topic : String
  device_class : Option String
  payload_on : Option String
  payload_off : Option String
deriving Repr, Inhabited

/-- `AlarmEventSensor` (lines 34-40). The Rust struct also clones the
`StateHandle`; since the handle is a live reference to mutable shared
state, reads through it are modelled by passing the store contents at
notify time to `notify_state`, so the struct keeps only the identifying
keys, exactly as §3 prescribes ("never a direct reference to Capability
data"). -/
structure AlarmEventSensor where
  sensor : BinarySensorConfig
  device_id : String
  instance_name : String
deriving Repr, Inhabited

/-- The classification match of `AlarmEventSensor::new` (lines 55-63):
exact instance names first, then the `*AlarmEvent` suffix, then the
`*Event` suffix, then the generic fallback. -/
def classify (s : String) : Option String × String :=
  if s = "lowBatteryEvent" then (some "battery", "Low Battery")
  else if s = "lackWaterEvent" then (some "problem", "Water Level Alert")
  else if s = "temperatureAlarmEvent" ∨ s = "tempAlarmEvent" then (some "problem", "Temperature Alarm")
  else if s = "humidityAlarmEvent" ∨ s = "humAlarmEvent" then (some "problem", "Humidity Alarm")
  else if str_ends_with s "AlarmEvent" then (some "problem", "Alarm")
  else if str_ends_with s "Event" then (some "problem", "Alert")
  else (none, "Event")

/-- The unique id computed at lines 48-52:
`format!("binary-sensor-{id}-{inst}", ...)`. -/
def unique_id_of (device : ServiceDevice) (inst : String) : String :=
  "binary-sensor-" ++ topic_safe_id device ++ "-" ++ topic_safe_string inst

/-- The value constructed by `AlarmEventSensor::new` (lines 48-87); the
Rust body wraps exactly this struct literal in `Ok`. -/
def AlarmEventSensor.make (device : ServiceDevice) (cap : DeviceCapability) : AlarmEventSensor :=
  let unique_id := unique_id_of device cap.«instance»
  let classified := classify cap.«instance»
  { sensor := {
      base := {
        availability_topic := availability_topic
        name := some classified.2
        entity_category := some "diagnostic"
        origin := Origin.default
        device := HassDevice.for_device device
        unique_id := unique_id
        device_class := classified.1
        icon := none }
      state_topic := "gv2mqtt/binary_sensor/" ++ unique_id ++ "/state"
      device_class := classified.1
      payload_on := some "ON"
      payload_off := some "OFF" }
    device_id := device.id
    instance_name := cap.«instance» }

/-- `AlarmEventSensor::new` (lines 43-88): an `anyhow::Result` with no
fallible operation in the body, so it always returns `Ok`. -/
def AlarmEventSensor.new (device : ServiceDevice) (cap : DeviceCapability) :
    Except String AlarmEventSensor :=
  .ok (AlarmEventSensor.make device cap)

/-- Outcome of one `notify_state` call: either the Rust code panicked
(`.expect`), or it returned `Ok` having issued the listed
(topic, payload) transport writes in order. -/
inductive NotifyOutcome where
  | panicked (msg : String)
  | ok (writes : List (String × String))
deriving Repr, DecidableEq

/-- Whether the call returned successfully. -/
def NotifyOutcome.isOk : NotifyOutcome → Bool
  | .ok _ => true
  | .panicked _ => false

/-- `AlarmEventSensor::notify_state` (lines 97-123), with the store
contents at call time passed explicitly: look the device up by id
(`.expect("device to exist")` panics when absent); if the capability
instance is present, extract `/value`, interpret a nonzero integer as
active, default to inactive on extraction failure, and publish
`"ON"`/`"OFF"` to the state topic; if the capability is absent, log at
trace level and return `Ok` with no write. -/
def AlarmEventSensor.notify_state (self : AlarmEventSensor) (store : StateHandle) :
    NotifyOutcome :=
  match store.device_by_id self.device_id with
  | none => .panicked "device to exist"
  | some device =>
    match device.get_state_capability_by_instance self.instance_name with
    | some cap =>
      let is_active := ((cap.state.pointer_value.bind Json.as_i64).map (fun v => v != 0)).getD false
      let state_value := if is_active then "ON" else "OFF"
      .ok [(self.sensor.state_topic, state_value)]
    | none => .ok []

/-- One serialized field: `skip_serializing_if = "Option::is_none"`
emits nothing for `none` and the field for `some`. -/
def optField (key : String) : Option Json → List (String × Json)
  | none => []
  | some j => [(key, j)]

/-- Modelled from the spec: serialization of the flattened `EntityConfig`
base (its serde derive lives in `base.rs`, outside the fragment); per §6
the descriptor carries availability topic, display name, entity category,
origin metadata, device linkage, unique id, optional device-class hint
and optional icon, and "fields with no value are omitted from the
serialized form rather than emitted as null". -/
def EntityConfig.serializeFields (c : EntityConfig) : List (String × Json) :=
  [("availability_topic", .str c.availability_topic)]
  ++ optField "name" (c.name.map .str)
  ++ optField "entity_category" (c.entity_category.map .str)
  ++ [("origin", .obj [("sw", .str c.origin.sw)])]
  ++ [("device", .obj [("identifiers", .arr (c.device.identifiers.map .str)),
                       ("name", .str c.device.name)])]
  ++ [("unique_id", .str c.unique_id)]
  ++ optField "device_class" (c.device_class.map .str)
  ++ optField "icon" (c.icon.map .str)

/-- Serialization of `BinarySensorConfig` (lines 10-22): the
`#[serde(flatten)]` base fields, then `state_topic`, then the three
optional fields, each with `skip_serializing_if = "Option::is_none"`. -/
def BinarySensorConfig.serializeFields (c : BinarySensorConfig) : List (String × Json) :=
  c.base.serializeFields
  ++ [("state_topic", .str c.state_topic)]
  ++ optField "device_class" (c.device_class.map .str)
  ++ optField "payload_on" (c.payload_on.map .str)
  ++ optField "payload_off" (c.payload_off.map .str)

/-! Concrete fixtures used by witnesses and counterexamples. -/

/-- A vendor capability named `lowBatteryEvent` (raw state irrelevant to
construction). -/
def capLowBattery : DeviceCapability := ⟨"lowBatteryEvent", Json.null⟩

/-- A service device with id `d1`. -/
def devD1 : ServiceDevice := ⟨"d1", "Device One", []⟩

/-- The sensor `AlarmEventSensor::new` builds for `devD1` and
`capLowBattery`. -/
def sensorD1 : AlarmEventSensor := AlarmEventSensor.make devD1 capLowBattery

/-- A store in which `d1` carries `lowBatteryEvent` with raw state
`value = 1`. -/
def storeWithValue1 : StateHandle :=
  ⟨[⟨"d1", "Device One", [⟨"lowBatteryEvent", Json.obj [("value", Json.int 1)]⟩]⟩]⟩

/-- A store in which `d1` is present but no longer carries the
`lowBatteryEvent` capability. -/
def storeNoCap : StateHandle := ⟨[⟨"d1", "Device One", []⟩]⟩

/-- A store from which `d1` has been removed entirely. -/
def storeEmpty : StateHandle := ⟨[]⟩

/-- C1 counterexample: with the stored device id absent from the State
Store, `notify_state` hits `.expect("device to exist")` and panics
instead of returning success. -/
theorem C1_counterexample :
    sensorD1.notify_state storeEmpty = NotifyOutcome.panicked "device to exist"
    ∧ (sensorD1.notify_state storeEmpty).isOk = false := by decide

/-- C1 (amended): for every `AlarmEventSensor`, if at notify time the
State Store still contains the stored device id but that device no longer
carries the stored capability instance name, `notify_state` returns
success and performs no transport write (trace log only). When the
device id itself is absent the code panics instead of returning. -/
theorem C1_missing_capability_is_benign
    (s : AlarmEventSensor) (st : StateHandle) (dev : ServiceDevice)
    (hdev : st.device_by_id s.device_id = some dev)
    (hcap : dev.get_state_capability_by_instance s.instance_name = none) :
    s.notify_state st = NotifyOutcome.ok [] := by
  simp only [AlarmEventSensor.notify_state, hdev, hcap]

/-- C1 witness: the amended theorem applied to a concrete sensor and a
concrete store holding the device without the capability. -/
theorem C1_missing_capability_is_benign_witness :
    sensorD1.notify_state storeNoCap = NotifyOutcome.ok [] :=
  C1_missing_capability_is_benign sensorD1 storeNoCap ⟨"d1", "Device One", []⟩ rfl rfl

/-- C2 counterexample: `weirdXEvent` ends with `Event`, and the suffix
rule at line 61 assigns device-class `problem`, not "no device-class" as
the claim states. -/
theorem C2_counterexample :
    classify "weirdXEvent" ≠ (none, "Alert")
    ∧ classify "weirdXEvent" = (some "problem", "Alert") := by decide

/-- C2 (amended): `customVendorAlarmEvent` classifies with device-class
`problem` and name `Alarm`; `weirdXEvent` classifies with device-class
`problem` (not without one) and name `Alert`; `unknownThing` classifies
with no device-class and name `Event`. -/
theorem C2_fallback_naming :
    classify "customVendorAlarmEvent" = (some "problem", "Alarm")
    ∧ classify "weirdXEvent" = (some "problem", "Alert")
    ∧ classify "unknownThing" = (none, "Event") := by decide

/-- C5: classification is total — every instance-name string yields
exactly one outcome, either a concrete device-class variant or the
generic no-device-class fallback named `Event`; no input fails. -/
theorem C5_classification_total (s : String) :
    (∃ dc name, classify s = (some dc, name)) ∨ classify s = (none, "Event") := by
  unfold classify
  split_ifs <;> first | exact Or.inl ⟨_, _, rfl⟩ | exact Or.inr rfl

/-- C9: `AlarmEventSensor::new` is total and infallible — for every
device and capability instance it returns `Ok` with a constructed
sensor. -/
theorem C9_new_infallible (d : ServiceDevice) (cap : DeviceCapability) :
    ∃ s, AlarmEventSensor.new d cap = Except.ok s :=
  ⟨AlarmEventSensor.make d cap, rfl⟩

/-- C10: regardless of the instance name, the constructed config has
entity category `diagnostic`, no icon, payload-on `ON` and payload-off
`OFF`; `new` returns exactly this construction wrapped in `Ok`. -/
theorem C10_construction_invariants (d : ServiceDevice) (cap : DeviceCapability) :
    AlarmEventSensor.new d cap = Except.ok (AlarmEventSensor.make d cap)
    ∧ (AlarmEventSensor.make d cap).sensor.base.entity_category = some "diagnostic"
    ∧ (AlarmEventSensor.make d cap).sensor.base.icon = none
    ∧ (AlarmEventSensor.make d cap).sensor.payload_on = some "ON"
    ∧ (AlarmEventSensor.make d cap).sensor.payload_off = some "OFF" :=
  ⟨rfl, rfl, rfl, rfl, rfl⟩

/-- C3: when the stored device and capability instance are both present
at notify time, a nonzero integer `value` in the raw state publishes
`ON` to the state topic, integer `0` publishes `OFF`, and an absent or
non-integer `value` publishes `OFF`; every case returns success. -/
theorem C3_transform_correctness
    (s : AlarmEventSensor) (st : StateHandle) (dev : ServiceDevice)
    (cap : DeviceCapabilityState)
    (hdev : st.device_by_id s.device_id = some dev)
    (hcap : dev.get_state_capability_by_instance s.instance_name = some cap) :
    (∀ n : Int, cap.state.pointer_value = some (Json.int n) → n ≠ 0 →
        s.notify_state st = NotifyOutcome.ok [(s.sensor.state_topic, "ON")])
    ∧ (cap.state.pointer_value = some (Json.int 0) →
        s.notify_state st = NotifyOutcome.ok [(s.sensor.state_topic, "OFF")])
    ∧ (cap.state.pointer_value.bind Json.as_i64 = none →
        s.notify_state st = NotifyOutcome.ok [(s.sensor.state_topic, "OFF")]) := by
  refine ⟨?_, ?_, ?_⟩
  · intro n hv hn
    simp [AlarmEventSensor.notify_state, hdev, hcap, hv, Json.as_i64, hn]
  · intro hv
    simp [AlarmEventSensor.notify_state, hdev, hcap, hv, Json.as_i64]
  · intro hv
    simp [AlarmEventSensor.notify_state, hdev, hcap, hv]

/-- C3 witness: the nonzero case of the theorem at a concrete sensor and
store (`value = 1` publishes `ON`). -/
theorem C3_transform_correctness_witness :
    sensorD1.notify_state storeWithValue1
      = NotifyOutcome.ok [(sensorD1.sensor.state_topic, "ON")] :=
  (C3_transform_correctness sensorD1 storeWithValue1 _ _ rfl rfl).1 1 rfl (by decide)

/-- The instance names with exact-match classification rules
(lines 56-59). -/
def exactAlarmNames : List String :=
  ["lowBatteryEvent", "lackWaterEvent", "temperatureAlarmEvent",
   "tempAlarmEvent", "humidityAlarmEvent", "humAlarmEvent"]

/-- C6: ordered pattern precedence — each of the six exact names
classifies by its exact rule even though it also ends with `Event` (or
`AlarmEvent`); any other name ending in `AlarmEvent` takes the alarm
fallback; any other name ending in `Event` but not `AlarmEvent` takes
the generic alert fallback. -/
theorem C6_pattern_precedence :
    (classify "lowBatteryEvent" = (some "battery", "Low Battery")
      ∧ str_ends_with "lowBatteryEvent" "Event" = true)
    ∧ (classify "lackWaterEvent" = (some "problem", "Water Level Alert")
      ∧ str_ends_with "lackWaterEvent" "Event" = true)
    ∧ (classify "temperatureAlarmEvent" = (some "problem", "Temperature Alarm")
      ∧ str_ends_with "temperatureAlarmEvent" "AlarmEvent" = true)
    ∧ (classify "tempAlarmEvent" = (some "problem", "Temperature Alarm")
      ∧ str_ends_with "tempAlarmEvent" "AlarmEvent" = true)
    ∧ (classify "humidityAlarmEvent" = (some "problem", "Humidity Alarm")
      ∧ str_ends_with "humidityAlarmEvent" "AlarmEvent" = true)
    ∧ (classify "humAlarmEvent" = (some "problem", "Humidity Alarm")
      ∧ str_ends_with "humAlarmEvent" "AlarmEvent" = true)
    ∧ (∀ s : String, s ∉ exactAlarmNames → str_ends_with s "AlarmEvent" = true →
        classify s = (some "problem", "Alarm"))
    ∧ (∀ s : String, s ∉ exactAlarmNames → str_ends_with s "AlarmEvent" = false →
        str_ends_with s "Event" = true → classify s = (some "problem", "Alert")) := by
  refine ⟨by decide, by decide, by decide, by decide, by decide, by decide, ?_, ?_⟩
  · intro s hmem hsuf
    simp only [exactAlarmNames, List.mem_cons, List.not_mem_nil, or_false, not_or] at hmem
    obtain ⟨n1, n2, n3, n4, n5, n6⟩ := hmem
    simp [classify, n1, n2, n3, n4, n5, n6, hsuf]
  · intro s hmem h1 h2
    simp only [exactAlarmNames, List.mem_cons, List.not_mem_nil, or_false, not_or] at hmem
    obtain ⟨n1, n2, n3, n4, n5, n6⟩ := hmem
    simp [classify, n1, n2, n3, n4, n5, n6, h1, h2]

/-- C6 witness: the `AlarmEvent` suffix fallback of the theorem applied
at a concrete non-exact name. -/
theorem C6_pattern_precedence_witness :
    classify "customVendorAlarmEvent" = (some "problem", "Alarm") :=
  C6_pattern_precedence.2.2.2.2.2.2.1 "customVendorAlarmEvent" (by decide) (by decide)

/-- Splitting a list at a distinguished element not occurring in either
left part is unambiguous. -/
lemma split_at_sep_inj {α : Type} {c : α} :
    ∀ (l1 l2 r1 r2 : List α), c ∉ l1 → c ∉ l2 →
      l1 ++ c :: r1 = l2 ++ c :: r2 → l1 = l2 ∧ r1 = r2 := by
  intro l1
  induction l1 with
  | nil =>
    intro l2 r1 r2 _ h2 h
    cases l2 with
    | nil => simpa using h
    | cons b t =>
      rw [List.nil_append, List.cons_append, List.cons_eq_cons] at h
      exact absurd (h.1 ▸ List.mem_cons_self b t) h2
  | cons a t ih =>
    intro l2 r1 r2 h1 h2 h
    cases l2 with
    | nil =>
      rw [List.nil_append, List.cons_append, List.cons_eq_cons] at h
      exact absurd (h.1 ▸ List.mem_cons_self a t) h1
    | cons b t2 =>
      rw [List.cons_append, List.cons_append, List.cons_eq_cons] at h
      obtain ⟨rfl, h⟩ := h
      obtain ⟨ht, hr⟩ := ih t2 r1 r2
        (fun hc => h1 (List.mem_cons_of_mem _ hc))
        (fun hc => h2 (List.mem_cons_of_mem _ hc)) h
      exact ⟨by rw [ht], hr⟩

/-- Appending strings appends their character lists. -/
lemma string_append_data (a b : String) : (a ++ b).data = a.data ++ b.data := by
  cases a; cases b; rfl

/-- Strings with equal character lists are equal. -/
lemma string_eq_of_data_eq {a b : String} (h : a.data = b.data) : a = b := by
  cases a; cases b
  exact congrArg String.mk h

/-- C4 counterexample: the claim's no-collision part fails as stated —
the `-` separator of the format string is ambiguous, so the distinct
pairs (device id `a-b`, instance `c`) and (device id `a`, instance
`b-c`) produce the same unique id `binary-sensor-a-b-c`. -/
theorem C4_counterexample :
    ((ServiceDevice.mk "a-b" "n" []).id, "c") ≠ ((ServiceDevice.mk "a" "n" []).id, "b-c")
    ∧ unique_id_of (ServiceDevice.mk "a-b" "n" []) "c"
      = unique_id_of (ServiceDevice.mk "a" "n" []) "b-c" :=
  ⟨by decide, rfl⟩

/-- C4 (amended): the unique id is a deterministic pure function of the
device id and instance name, and for two pairs whose topic-safe device
ids contain no `-` character, equal unique ids force equal topic-safe
components (so distinct such pairs never collide); without that
restriction the `-` separator makes collisions possible. -/
theorem C4_unique_id_deterministic_and_injective :
    (∀ (d : ServiceDevice) (i : String), unique_id_of d i = unique_id_of d i)
    ∧ (∀ (d1 d2 : ServiceDevice) (i1 i2 : String),
        '-' ∉ (topic_safe_id d1).data → '-' ∉ (topic_safe_id d2).data →
        unique_id_of d1 i1 = unique_id_of d2 i2 →
        topic_safe_id d1 = topic_safe_id d2 ∧ topic_safe_string i1 = topic_safe_string i2) := by
  constructor
  · intro d i; rfl
  · intro d1 d2 i1 i2 h1 h2 h
    have hd : ['b', 'i', 'n', 'a', 'r', 'y', '-', 's', 'e', 'n', 's', 'o', 'r', '-']
          ++ ((topic_safe_id d1).data ++ '-' :: (topic_safe_string i1).data)
        = ['b', 'i', 'n', 'a', 'r', 'y', '-', 's', 'e', 'n', 's', 'o', 'r', '-']
          ++ ((topic_safe_id d2).data ++ '-' :: (topic_safe_string i2).data) := by
      have hdata := congrArg String.data h
      simp only [unique_id_of, string_append_data] at hdata
      simpa [List.append_assoc] using hdata
    have hsplit := split_at_sep_inj _ _ _ _ h1 h2 (List.append_cancel_left hd)
    exact ⟨string_eq_of_data_eq hsplit.1, string_eq_of_data_eq hsplit.2⟩

/-- C4 witness: the injectivity part of the theorem applied at concrete
dash-free inputs. -/
theorem C4_unique_id_witness :
    topic_safe_id (ServiceDevice.mk "ab" "n" []) = topic_safe_id (ServiceDevice.mk "ab" "n" [])
    ∧ topic_safe_string "inst1" = topic_safe_string "inst1" :=
  C4_unique_id_deterministic_and_injective.2 ⟨"ab", "n", []⟩ ⟨"ab", "n", []⟩
    "inst1" "inst1" (by decide) (by decide) rfl

/-- C7: every constructed sensor's state topic is exactly the fixed
namespace, the `binary_sensor` family segment and the unique id followed
by `/state`, and every (topic, payload) pair notify_state writes goes to
that topic with a payload from the fixed vocabulary `ON`/`OFF`. -/
theorem C7_topic_and_payload_vocabulary (d : ServiceDevice) (cap : DeviceCapability) :
    (AlarmEventSensor.make d cap).sensor.state_topic
      = "gv2mqtt/binary_sensor/" ++ (AlarmEventSensor.make d cap).sensor.base.unique_id ++ "/state"
    ∧ ∀ (st : StateHandle) (writes : List (String × String)),
        (AlarmEventSensor.make d cap).notify_state st = NotifyOutcome.ok writes →
        ∀ t p, (t, p) ∈ writes →
          t = (AlarmEventSensor.make d cap).sensor.state_topic ∧ (p = "ON" ∨ p = "OFF") := by
  refine ⟨rfl, ?_⟩
  intro st writes h t p hmem
  unfold AlarmEventSensor.notify_state at h
  split at h
  · cases h
  · split at h
    · cases h
      simp only [List.mem_singleton, Prod.mk.injEq] at hmem
      obtain ⟨rfl, rfl⟩ := hmem
      refine ⟨rfl, ?_⟩
      split
      · exact Or.inl rfl
      · exact Or.inr rfl
    · cases h
      cases hmem

/-- C7 witness: the theorem applied to a concrete device, capability and
store, at the single write that call performs. -/
theorem C7_topic_and_payload_vocabulary_witness :
    "gv2mqtt/binary_sensor/binary-sensor-d1-lowBatteryEvent/state"
      = (AlarmEventSensor.make devD1 capLowBattery).sensor.state_topic
    ∧ ("ON" = "ON" ∨ ("ON" : String) = "OFF") :=
  (C7_topic_and_payload_vocabulary devD1 capLowBattery).2 storeWithValue1
    [("gv2mqtt/binary_sensor/binary-sensor-d1-lowBatteryEvent/state", "ON")] rfl
    "gv2mqtt/binary_sensor/binary-sensor-d1-lowBatteryEvent/state" "ON" (by decide)

/-- Members of an `optField` chunk carry the given key and a value the
option actually holds. -/
lemma mem_optField {key : String} {o : Option Json} {kv : String × Json}
    (h : kv ∈ optField key o) : ∃ j, o = some j ∧ kv = (key, j) := by
  cases o with
  | none => cases h
  | some j =>
    simp only [optField, List.mem_singleton] at h
    exact ⟨j, rfl, h⟩

/-- C8: serialization with `skip_serializing_if = "Option::is_none"`
omits absent optional fields (`device_class`, `payload_on`,
`payload_off`) from the document rather than emitting them as null; for
the `device_class` key the flattened base's own `device_class` option
must also be absent, since `#[serde(flatten)]` merges its fields into
the same document. No field of the document ever carries a null value. -/
theorem C8_none_fields_omitted (c : BinarySensorConfig) :
    (c.device_class = none → c.base.device_class = none →
        "device_class" ∉ (c.serializeFields).map Prod.fst)
    ∧ (c.payload_on = none → "payload_on" ∉ (c.serializeFields).map Prod.fst)
    ∧ (c.payload_off = none → "payload_off" ∉ (c.serializeFields).map Prod.fst)
    ∧ (∀ kv ∈ c.serializeFields, kv.2 ≠ Json.null) := by
  obtain ⟨⟨at_, n_, ec_, o_, dv_, u_, dc_, ic_⟩, stp_, dc2_, pon_, poff_⟩ := c
  refine ⟨?_, ?_, ?_, ?_⟩
  · rintro rfl rfl
    cases n_ <;> cases ec_ <;> cases ic_ <;> cases pon_ <;> cases poff_ <;>
      simp [BinarySensorConfig.serializeFields, EntityConfig.serializeFields, optField]
  · rintro rfl
    cases n_ <;> cases ec_ <;> cases ic_ <;> cases dc_ <;> cases dc2_ <;> cases poff_ <;>
      simp [BinarySensorConfig.serializeFields, EntityConfig.serializeFields, optField]
  · rintro rfl
    cases n_ <;> cases ec_ <;> cases ic_ <;> cases dc_ <;> cases dc2_ <;> cases pon_ <;>
      simp [BinarySensorConfig.serializeFields, EntityConfig.serializeFields, optField]
  · intro kv hkv
    simp only [BinarySensorConfig.serializeFields, EntityConfig.serializeFields,
      List.append_assoc, List.mem_append, List.mem_singleton] at hkv
    rcases hkv with (rfl | h | h | rfl | rfl | rfl | h | h | rfl | h | h | h) <;>
      first
        | (obtain ⟨j, hj, rfl⟩ := mem_optField h
           obtain ⟨x, -, rfl⟩ := Option.map_eq_some'.mp hj
           simp)
        | simp

/-- C8 witness: the `payload_on` clause of the theorem at a concrete
config whose optional fields are all absent. -/
theorem C8_none_fields_omitted_witness :
    "payload_on" ∉
      ((BinarySensorConfig.mk
        (EntityConfig.mk "gv2mqtt/availability" none none Origin.default
          (HassDevice.mk ["d1"] "Device One") "uid" none none)
        "topic" none none none).serializeFields).map Prod.fst :=
  (C8_none_fields_omitted _).2.1 rfl

end Govee2Mqtt
